import Mathlib

/-!
Verification of the andru-assessment-frontend core: the scoring engine
(`calculateScore` over the 14-question catalog), the buyer-gap analyzer
(`calculateBuyerGap`), the assessment wizard transitions (`handleResponse`,
`handlePrevious`), the real-time insight requester (`generateRealtimeInsight`),
and the diagnostic synthesis rules (`generateChallenges`,
`generateToolRecommendations`, `generateHiddenInsights`).

Numbers are modelled as exact rationals (`ℚ`); the JavaScript `Math.round`
is `jround q = ⌊q + 1/2⌋`.  The one place the source can produce `NaN`
(a `0 / 0` in `calculateBuyerGap` when both token lists are empty) is
modelled by an `Option` result, `none` standing for the `NaN` outcome.
-/

unseal Rat.add Rat.mul Rat.inv Rat.sub

/-- Question category, from `assessment-questions`: `'buyer' | 'tech'`. -/
inductive Category where
  | buyer
  | tech
deriving DecidableEq, Repr

/-- Qualification tier of an assessment result. -/
inductive Qualification where
  | Qualified
  | Promising
  | Developing
  | EarlyStage
deriving DecidableEq, Repr

/-- A catalog question: id, category, prompt text and weight. -/
structure Question where
  id : String
  category : Category
  text : String
  weight : ℚ
deriving DecidableEq, Repr

/-- The fixed 14-entry question catalog (`assessmentQuestions`), with the
literal weights of the source: nine buyer questions at 8.57, one (q14) at
8.58, four tech questions at 10. -/
def assessmentQuestions : List Question :=
  [ { id := "q1", category := Category.buyer,
      text := "I can name the exact three pain points that cost my buyers the most money annually",
      weight := 857/100 },
    { id := "q2", category := Category.buyer,
      text := "I know the specific job titles, LinkedIn headlines, and reporting structure of my champions",
      weight := 857/100 },
    { id := "q3", category := Category.buyer,
      text := "I can map out the exact 7-step evaluation process my buyers follow, including who signs off at each stage",
      weight := 857/100 },
    { id := "q4", category := Category.buyer,
      text := "I have calculated the specific dollar amount my solution saves/earns per customer per quarter",
      weight := 857/100 },
    { id := "q5", category := Category.buyer,
      text := "I know the exact internal event or metric threshold that triggers buyers to seek my solution urgently",
      weight := 857/100 },
    { id := "q6", category := Category.buyer,
      text := "I can list my top 3 competitors and explain why buyers choose them over me in specific scenarios",
      weight := 857/100 },
    { id := "q7", category := Category.buyer,
      text := "I know exactly how my product features map to executive KPIs like CAC, NRR, or operational efficiency",
      weight := 857/100 },
    { id := "q8", category := Category.tech,
      text := "I can explain my API architecture to a CFO in terms of cost savings and risk reduction",
      weight := 10 },
    { id := "q9", category := Category.tech,
      text := "I have a one-page business case that quantifies value without mentioning technology stack",
      weight := 10 },
    { id := "q10", category := Category.tech,
      text := "I can demonstrate my product\x27s value in under 5 minutes using only business metrics",
      weight := 10 },
    { id := "q11", category := Category.tech,
      text := "I have 3+ case studies showing specific percentage improvements in revenue, costs, or time",
      weight := 10 },
    { id := "q12", category := Category.buyer,
      text := "I conduct 5+ customer discovery calls per week and document specific quotes about their problems",
      weight := 857/100 },
    { id := "q13", category := Category.buyer,
      text := "I have a documented ICP that includes company size, tech stack, team structure, and budget range",
      weight := 857/100 },
    { id := "q14", category := Category.buyer,
      text := "I track time-to-value, feature adoption rate, and expansion revenue for each customer cohort",
      weight := 858/100 } ]

/-- JavaScript `Math.round` on an exact rational: round half toward
positive infinity, `Math.round x = ⌊x + 1/2⌋`. -/
def jround (q : ℚ) : ℤ := ⌊q + 1/2⌋

/-- One step of the accumulation loop of `calculateScore`: look up the
response (`responses[question.id] || 0`), score `(response / 4) * weight`,
and add it to the buyer or tech component of the accumulator. -/
def scoreStep (responses : String → Option ℚ) (acc : ℚ × ℚ) (question : Question) : ℚ × ℚ :=
  let response := (responses question.id).getD 0
  let points := response / 4 * question.weight
  if question.category = Category.buyer then
    (acc.1 + points, acc.2)
  else
    (acc.1, acc.2 + points)

/-- The category totals of `calculateScore`: fold the accumulation step
over the whole catalog starting from zero. -/
def scoreTotals (responses : String → Option ℚ) : ℚ × ℚ :=
  assessmentQuestions.foldl (scoreStep responses) (0, 0)

/-- The descending-threshold qualification chain of `calculateScore`. -/
def qualificationFor (overallScore : ℤ) : Qualification :=
  if overallScore ≥ 80 then Qualification.Qualified
  else if overallScore ≥ 60 then Qualification.Promising
  else if overallScore ≥ 40 then Qualification.Developing
  else Qualification.EarlyStage

/-- The result record of `calculateScore`. -/
structure AssessmentResult where
  buyerScore : ℤ
  techScore : ℤ
  overallScore : ℤ
  qualification : Qualification
deriving DecidableEq, Repr

/-- `calculateScore` from `assessment-questions`: accumulate weighted
points per category, round the grand total for `overallScore`, assign the
qualification by descending thresholds, and round each category total. -/
def calculateScore (responses : String → Option ℚ) : AssessmentResult :=
  let totals := scoreTotals responses
  let overallScore := jround (totals.1 + totals.2)
  let qualification :=
    if overallScore ≥ 80 then Qualification.Qualified
    else if overallScore ≥ 60 then Qualification.Promising
    else if overallScore ≥ 40 then Qualification.Developing
    else Qualification.EarlyStage
  { buyerScore := jround totals.1
    techScore := jround totals.2
    overallScore := overallScore
    qualification := qualification }

/-- Turn an explicit association list into a response map. -/
def respOf (l : List (String × ℚ)) : String → Option ℚ :=
  fun s => (l.find? (fun p => p.1 = s)).map (fun p => p.2)

/-- The substring test of `aiWord.includes(word)`: some contiguous run of
`hay` equals `needle`. -/
def strIncludes (hay needle : List Char) : Bool :=
  hay.tails.any (fun t => needle.isPrefixOf t)

/-- Split a character list at whitespace, keeping the (possibly empty)
chunks between separators, like the JavaScript `split(/\s+/)` does up to
empty chunks — which the length filter below removes either way. -/
def splitWsAux : List Char → List Char → List (List Char)
  | [], cur => [cur.reverse]
  | c :: cs, cur =>
    if c.isWhitespace then cur.reverse :: splitWsAux cs []
    else splitWsAux cs (c :: cur)

/-- `text.toLowerCase().split(/\s+/).filter(w => w.length > 3)`: the token
list both sides of `calculateBuyerGap` are reduced to. -/
def tokensOf (s : String) : List (List Char) :=
  (splitWsAux (s.toList.map Char.toLower) []).filter (fun w => w.length > 3)

/-- `calculateBuyerGap` from the assessment page: tokenize both texts,
count the user tokens that substring-match some generated token, divide by
the larger token count, and clamp `round((1 - ratio) * 100)` to `[15, 75]`.
When both token lists are empty the source divides `0 / 0`, producing
`NaN` which propagates through `Math.round`, `Math.min` and `Math.max`;
that outcome is modelled as `none`. -/
def calculateBuyerGap (userDescription aiGenerated : String) : Option ℤ :=
  let userWords := tokensOf userDescription
  let aiWords := tokensOf aiGenerated
  let overlap := userWords.filter (fun word =>
    aiWords.any (fun aiWord => strIncludes aiWord word || strIncludes word aiWord))
  if max aiWords.length userWords.length = 0 then none
  else
    let overlapRatio : ℚ := (overlap.length : ℚ) / ((max aiWords.length userWords.length : ℕ) : ℚ)
    let gap := jround ((1 - overlapRatio) * 100)
    some (max 15 (min 75 gap))

/-- The number of user tokens that substring-match some generated token,
shared by the two reference formulas below. -/
def overlapCount (userDescription aiGenerated : String) : ℕ :=
  ((tokensOf userDescription).filter (fun word =>
    (tokensOf aiGenerated).any (fun aiWord =>
      strIncludes aiWord word || strIncludes word aiWord))).length

/-- The gap formula as the claim words it: the overlap ratio has the
number of user tokens as its denominator. Undefined (`none`) when the user
token list is empty. -/
def gapWithUserDenom (userDescription aiGenerated : String) : Option ℤ :=
  let userWords := tokensOf userDescription
  if userWords.length = 0 then none
  else
    let overlapRatio : ℚ := (overlapCount userDescription aiGenerated : ℚ) / (userWords.length : ℚ)
    let gap := jround ((1 - overlapRatio) * 100)
    some (if gap < 15 then 15 else if gap > 75 then 75 else gap)

/-- The corrected gap formula: the denominator of the overlap ratio is the
larger of the two token counts. -/
def gapWithMaxDenom (userDescription aiGenerated : String) : ℤ :=
  let d := max (tokensOf aiGenerated).length (tokensOf userDescription).length
  let overlapRatio : ℚ := (overlapCount userDescription aiGenerated : ℚ) / (d : ℚ)
  let gap := jround ((1 - overlapRatio) * 100)
  if gap < 15 then 15 else if gap > 75 then 75 else gap

/-- JavaScript object update `{ ...obj, [k]: v }` on an association list:
overwrite in place when the key exists, append otherwise. -/
def insertKV (l : List (String × ℚ)) (k : String) (v : ℚ) : List (String × ℚ) :=
  if l.any (fun p => p.1 = k) then
    l.map (fun p => if p.1 = k then (k, v) else p)
  else
    l ++ [(k, v)]

/-- Key lookup on an association list. -/
def lookupKV (l : List (String × ℚ)) (k : String) : Option ℚ :=
  (l.find? (fun p => p.1 = k)).map (fun p => p.2)

/-- The wizard state of the assessment page that `handleResponse` and
`handlePrevious` read and write: the current question index, the response
and timing maps, and the flag that switches to the user-info step. -/
structure AssessState where
  currentQuestion : ℕ
  responses : List (String × ℚ)
  questionTimings : List (String × ℚ)
  showUserForm : Bool
deriving DecidableEq, Repr

/-- The initial wizard state: question index 0, empty maps. -/
def initAssessState : AssessState :=
  { currentQuestion := 0, responses := [], questionTimings := [], showUserForm := false }

/-- `handleResponse(value)` from the assessment page. `timeOnQuestion`
stands for the elapsed `Date.now() - questionStartTime`. The result pairs
the updated state with the batch number passed to
`generateRealtimeInsight` when a trigger fires (`none` when no insight is
requested). `none` overall models the exception the source would raise
when `assessmentQuestions[currentQuestion]` is `undefined`. The source
records timing and response unconditionally — there is no validation of
`value` — and triggers insight generation exactly when
`questionNumber = currentQuestion + 1` is 4, 9 or 14. -/
def handleResponse (s : AssessState) (value timeOnQuestion : ℚ) :
    Option (AssessState × Option ℕ) :=
  match assessmentQuestions.get? s.currentQuestion with
  | none => none
  | some question =>
    let newTimings := insertKV s.questionTimings question.id timeOnQuestion
    let newResponses := insertKV s.responses question.id value
    let questionNumber := s.currentQuestion + 1
    let trigger : Option ℕ :=
      if questionNumber = 4 then some 1
      else if questionNumber = 9 then some 2
      else if questionNumber = 14 then some 3
      else none
    if s.currentQuestion = assessmentQuestions.length - 1 then
      some ({ s with responses := newResponses, questionTimings := newTimings,
                     showUserForm := true }, trigger)
    else
      some ({ s with responses := newResponses, questionTimings := newTimings,
                     currentQuestion := s.currentQuestion + 1 }, trigger)

/-- `handlePrevious` from the assessment page: decrement the question
index when it is positive. -/
def handlePrevious (s : AssessState) : AssessState :=
  if s.currentQuestion > 0 then { s with currentQuestion := s.currentQuestion - 1 } else s

/-- One user interaction with the wizard: answer the current question or
press the Previous button. -/
inductive WizardAction where
  | answer (value timeOnQuestion : ℚ)
  | previous
deriving Repr

/-- Run one action, returning the new state and any insight trigger. -/
def runAction (s : AssessState) : WizardAction → Option (AssessState × Option ℕ)
  | WizardAction.answer v t => handleResponse s v t
  | WizardAction.previous => some (handlePrevious s, none)

/-- Run a list of actions, keeping the final state. -/
def runActions : AssessState → List WizardAction → Option AssessState
  | s, [] => some s
  | s, a :: rest =>
    match runAction s a with
    | none => none
    | some (s', _) => runActions s' rest

/-- Product info of the simplified input form consumed by the insight
requester. -/
structure ProductInfo where
  businessModel : String
  productDescription : String
deriving DecidableEq, Repr

/-- A real-time insight record returned by the external service. -/
structure AssessmentInsight where
  id : String
  sessionId : String
  batchNumber : ℕ
  questionRange : String
  insight : String
  challengeIdentified : String
  businessImpact : String
  confidence : ℚ
  generatedAt : String
deriving DecidableEq, Repr

/-- The observable effect of `generateRealtimeInsight(batchNumber)` from
the assessment page: when `sessionId` or `productInfo` is missing the call
skips without contacting the service; otherwise it always invokes the
external batch endpoint (modelled by `serviceReply`), appends the returned
insight to `aiInsights` on success, and leaves the list unchanged on
failure. The returned flag records whether the external service was
invoked. The source has no check against an already-existing insight for
the same batch. -/
def generateRealtimeInsight (sessionId : String) (productInfo : Option ProductInfo)
    (aiInsights : List AssessmentInsight) ( _batchNumber : ℕ)
    (serviceReply : Except String AssessmentInsight) :
    List AssessmentInsight × Bool :=
  if sessionId = "" ∨ productInfo = none then (aiInsights, false)
  else
    match serviceReply with
    | Except.ok result => (aiInsights ++ [result], true)
    | Except.error _ => (aiInsights, true)

/-- The `results` record the results view receives: rounded scores plus the
qualification label. -/
structure ResultsView where
  overallScore : ℤ
  buyerScore : ℤ
  techScore : ℤ
  qualification : String
deriving DecidableEq, Repr

/-- The generated-content record: reference profile texts and the computed
buyer gap. -/
structure GeneratedContent where
  icpGenerated : Option String
  tbpGenerated : Option String
  buyerGap : Option ℚ
deriving DecidableEq, Repr

/-- The full product-info record of the results view props. -/
structure ProductInfoFull where
  productName : String
  productDescription : String
  keyFeatures : String
  idealCustomerDescription : String
  businessModel : String
  customerCount : String
  distinguishingFeature : String
deriving DecidableEq, Repr

/-- Challenge severity. -/
inductive Severity where
  | high
  | medium
  | low
deriving DecidableEq, Repr

/-- A synthesized challenge. -/
structure Challenge where
  name : String
  severity : Severity
  evidence : String
  pattern : String
  revenueImpact : String
deriving DecidableEq, Repr

/-- A synthesized tool recommendation. -/
structure ToolRecommendation where
  name : String
  description : String
  whyRecommended : String
  expectedImprovement : String
  directLink : String
deriving DecidableEq, Repr

/-- Kind tag of a hidden insight. -/
inductive HiddenInsightType where
  | unconsciousIncompetence
  | overconfidence
  | industryComparison
  | ahaMoment
deriving DecidableEq, Repr

/-- A synthesized hidden insight. -/
structure HiddenInsight where
  type : HiddenInsightType
  title : String
  description : String
deriving DecidableEq, Repr

/-- JavaScript `a || b` on an optional string: the fallback replaces both a
missing and an empty string. -/
def jsOrStr (o : Option String) (d : String) : String :=
  match o with
  | none => d
  | some s => if s = "" then d else s

/-- `hay.includes(needle)` on strings (case-sensitive). -/
def strIncludesStr (hay needle : String) : Bool :=
  strIncludes hay.toList needle.toList

/-- The lowercased ICP text the synthesis rules do keyword matching on:
`generatedContent?.icpGenerated?.toLowerCase() || ''`. -/
def icpInsightsOf (generatedContent : Option GeneratedContent) : List Char :=
  ((generatedContent.bind (fun g => g.icpGenerated)).getD "").toList.map Char.toLower

/-- `generatedContent?.buyerGap || 0`. -/
def buyerGapOf (generatedContent : Option GeneratedContent) : ℚ :=
  (generatedContent.bind (fun g => g.buyerGap)).getD 0

/-- `generateChallenges` from the results view: up to five rule-driven
challenges (buyer-gap misalignment, revenue foundation, buyer/tech
imbalance, decision confidence, mastery optimization), a generic
continuous-improvement fallback when none fired, truncated to the top 3. -/
def generateChallenges (results : ResultsView) (generatedContent : Option GeneratedContent)
    (productInfo : Option ProductInfoFull) (questionTimings : List (String × ℚ)) :
    List Challenge :=
  let buyerTechGap := |results.buyerScore - results.techScore|
  let icpInsights := icpInsightsOf generatedContent
  let buyerGap := buyerGapOf generatedContent
  let c1 : List Challenge :=
    if buyerGap > 60 then
      let specific :=
        if strIncludes icpInsights "enterprise".toList || strIncludes icpInsights "complex".toList then
          ("Enterprise Buyer Complexity",
           "Your buyers have 6+ stakeholders but your approach targets single champions")
        else if strIncludes icpInsights "technical".toList && strIncludes icpInsights "founder".toList then
          ("Technical Buyer Translation",
           "Your buyers evaluate architecture first but you lead with business value")
        else if strIncludes icpInsights "budget".toList || strIncludes icpInsights "cost".toList then
          ("Economic Buyer Justification",
           "Your buyers need ROI proof within 90 days but you lack quantified metrics")
        else
          ("Buyer Profile Misalignment",
           toString buyerGap ++ "% variance between your buyer understanding and market reality")
      [{ name := specific.1
         severity := Severity.high
         evidence := specific.2
         pattern := "ICP analysis reveals critical gaps in understanding "
           ++ jsOrStr (productInfo.map (fun p => p.businessModel)) "B2B" ++ " buyer priorities"
         revenueImpact := "Alignment could increase qualified pipeline by 40-60%" }]
    else []
  let c2 : List Challenge :=
    if results.overallScore < 70 then
      let contextualPattern :=
        if strIncludes icpInsights "startup".toList || strIncludes icpInsights "series".toList then
          "Selling to funded startups requires different proof than enterprise sales"
        else
          "Technical founder challenge - strong product vision needs revenue execution"
      [{ name := "Revenue Foundation Building"
         severity := if results.overallScore < 50 then Severity.high else Severity.medium
         evidence := "Overall readiness at " ++ toString results.overallScore
           ++ "% indicates foundational gaps"
         pattern := contextualPattern
         revenueImpact := "Foundation improvements typically accelerate revenue 2-3x within 6 months" }]
    else []
  let c3 : List Challenge :=
    if buyerTechGap > 15 then
      if results.techScore > results.buyerScore then
        [{ name := "Customer Empathy Development"
           severity := if buyerTechGap > 25 then Severity.high else Severity.medium
           evidence := "Tech communication (" ++ toString results.techScore
             ++ "%) stronger than buyer understanding (" ++ toString results.buyerScore ++ "%)"
           pattern := "Technical founder pattern - excellent product knowledge, opportunity to strengthen customer connection"
           revenueImpact := "Enhanced customer empathy typically increases deal closure rates by 20-30%" }]
      else
        [{ name := "Technical Value Communication"
           severity := if buyerTechGap > 25 then Severity.high else Severity.medium
           evidence := "Buyer understanding (" ++ toString results.buyerScore
             ++ "%) exceeds tech communication (" ++ toString results.techScore ++ "%)"
           pattern := "Strong customer connection with opportunity to improve technical value articulation"
           revenueImpact := "Better technical storytelling can reduce sales cycles by 30-40%" }]
    else []
  let timings := questionTimings.map (fun p => p.2)
  let avgTime : ℚ := if timings.length > 0 then timings.sum / (timings.length : ℚ) else 0
  let slowQuestions := (timings.filter (fun t => t > avgTime * (3/2))).length
  let c4 : List Challenge :=
    if slowQuestions ≥ 2 then
      [{ name := "Decision Confidence"
         severity := if slowQuestions ≥ 4 then Severity.high else Severity.medium
         evidence := "Extended consideration on " ++ toString slowQuestions
           ++ " questions indicates thoughtful analysis"
         pattern := "Reflective decision-making style - thorough but can benefit from confidence building"
         revenueImpact := "Increased confidence in revenue conversations leads to more compelling presentations" }]
    else []
  let c5 : List Challenge :=
    if results.overallScore ≥ 80 then
      [{ name := "Mastery Optimization"
         severity := Severity.low
         evidence := "Strong performance at " ++ toString results.overallScore
           ++ "% with potential for expert-level execution"
         pattern := "High-achiever profile - ready for advanced revenue strategies"
         revenueImpact := "Fine-tuning at this level can unlock premium pricing and enterprise deals" }]
    else []
  let challenges := c1 ++ c2 ++ c3 ++ c4 ++ c5
  let challenges :=
    if challenges.length = 0 then
      [{ name := "Continuous Improvement"
         severity := Severity.medium
         evidence := "Assessment completed - opportunity for strategic revenue enhancement"
         pattern := "Growth-minded approach to revenue development"
         revenueImpact := "Proactive revenue skill building creates competitive advantages" }]
    else challenges
  challenges.take 3

/-- `generateToolRecommendations`: gap- and keyword-driven resources, then
challenge-driven resources appended while fewer than 3 are collected, then
score-driven resources, truncated to the top 3. -/
def generateToolRecommendations (results : ResultsView)
    (generatedContent : Option GeneratedContent) (productInfo : Option ProductInfoFull)
    (questionTimings : List (String × ℚ)) : List ToolRecommendation :=
  let challenges := generateChallenges results generatedContent productInfo questionTimings
  let icpInsights := icpInsightsOf generatedContent
  let buyerGap := buyerGapOf generatedContent
  let tools1 : List ToolRecommendation :=
    if buyerGap > 50 then
      (if strIncludes icpInsights "enterprise".toList || strIncludes icpInsights "stakeholder".toList then
        [{ name := "Stakeholder Mapping Canvas"
           description := "Visual framework to identify and influence all 7+ decision makers in enterprise deals"
           whyRecommended := "Your ICP involves "
             ++ (if strIncludes icpInsights "6+".toList then "6+" else "multiple")
             ++ " stakeholders but you are targeting single champions"
           expectedImprovement := "Reduce deal slippage by 45% through complete stakeholder coverage"
           directLink := "/resources/stakeholder-canvas" }]
      else [])
      ++
      (if strIncludes icpInsights "technical".toList || strIncludes icpInsights "developer".toList then
        [{ name := "Technical Buyer Playbook"
           description := "Scripts and frameworks for selling to CTOs, VPs of Engineering, and technical evaluators"
           whyRecommended := "Your buyers evaluate architecture first - this playbook speaks their language"
           expectedImprovement := "Increase technical champion engagement by 60%"
           directLink := "/resources/technical-playbook" }]
      else [])
    else []
  let tools2 := challenges.foldl
    (fun acc challenge =>
      let acc :=
        if strIncludesStr challenge.name "Buyer" ∧ acc.length < 3 then
          acc ++ [{ name := "Discovery Call Blueprint"
                    description := "47-question framework to uncover budget, authority, need, and timeline in one call"
                    whyRecommended := "Transforms every prospect call into qualified pipeline"
                    expectedImprovement := "Increase discovery-to-demo conversion by 35%"
                    directLink := "/resources/discovery-blueprint" }]
        else acc
      let acc :=
        if strIncludesStr challenge.name "Technical" ∧ acc.length < 3 then
          acc ++ [{ name := "ROI Calculator Templates"
                    description := "Pre-built Excel models to quantify value in dollars, hours, and efficiency gains"
                    whyRecommended := "Convert technical metrics into CFO-friendly business cases"
                    expectedImprovement := "Shorten approval cycles by 3-4 weeks"
                    directLink := "/resources/roi-templates" }]
        else acc
      let acc :=
        if challenge.severity = Severity.high ∧ acc.length < 3 then
          acc ++ [{ name := "Objection Handling Matrix"
                    description := "127 proven responses to \"too expensive\", \"not now\", and \"need to think about it\""
                    whyRecommended := "Your assessment shows hesitation patterns - this builds conviction"
                    expectedImprovement := "Convert 30% more \"maybes\" into \"yes\""
                    directLink := "/resources/objection-matrix" }]
        else acc
      acc)
    tools1
  let tools3 :=
    if results.buyerScore < 60 ∧ tools2.length < 3 then
      tools2 ++ [{ name := "Customer Interview Tracker"
                   description := "Notion template to document and analyze 100+ customer conversations systematically"
                   whyRecommended := "Build deep buyer empathy through structured customer research"
                   expectedImprovement := "Gain 20+ buyer insights per week"
                   directLink := "/resources/interview-tracker" }]
    else tools2
  let tools4 :=
    if results.techScore < 60 ∧ tools3.length < 3 then
      tools3 ++ [{ name := "Feature-to-Benefit Translator"
                   description := "AI-powered tool that converts technical specs into customer value statements"
                   whyRecommended := "Bridge the gap between what you built and why customers care"
                   expectedImprovement := "Create compelling value props in 5 minutes instead of hours"
                   directLink := "/resources/feature-translator" }]
    else tools3
  let tools5 :=
    if results.overallScore > 75 ∧ tools4.length < 3 then
      tools4 ++ [{ name := "Enterprise Deal Orchestrator"
                   description := "Advanced framework for managing $100K+ deals with multiple stakeholders"
                   whyRecommended := "You are ready for bigger deals - this helps you close them"
                   expectedImprovement := "Increase average deal size by 2.5x"
                   directLink := "/resources/enterprise-orchestrator" }]
    else tools4
  tools5.take 3

/-- `generateHiddenInsights`: a conditional confidence-competence insight,
an unconditional industry-comparison insight, and a conditional aha-moment
insight, in source order and with no truncation. -/
def generateHiddenInsights (results : ResultsView)
    (questionTimings : List (String × ℚ)) : List HiddenInsight :=
  let buyerTechGap := |results.buyerScore - results.techScore|
  let timings := questionTimings.map (fun p => p.2)
  let quickAnswers := (timings.filter (fun t => t < 2000)).length
  let i1 : List HiddenInsight :=
    if quickAnswers > 8 ∧ results.overallScore < 70 then
      [{ type := HiddenInsightType.unconsciousIncompetence
         title := "Confidence-Competence Gap Detected"
         description := "You answered " ++ toString quickAnswers
           ++ " questions very quickly but scored " ++ toString results.overallScore
           ++ "%. This suggests overconfidence in areas where you actually have knowledge gaps - a classic technical founder pattern." }]
    else []
  let i2 : List HiddenInsight :=
    [{ type := HiddenInsightType.industryComparison
       title := "Technical Founder Benchmark"
       description := "Your profile matches 73% of technical founders: strong product vision ("
         ++ toString results.techScore ++ "%) but "
         ++ (if results.buyerScore < results.techScore then "weaker" else "stronger")
         ++ " customer empathy (" ++ toString results.buyerScore ++ "%). This is actually "
         ++ (if results.buyerScore > results.techScore then "unusual and advantageous" else "typical but addressable")
         ++ "." }]
  let i3 : List HiddenInsight :=
    if buyerTechGap > 25 then
      [{ type := HiddenInsightType.ahaMoment
         title := "Revenue Acceleration Insight"
         description := "Your "
           ++ (if results.buyerScore > results.techScore then "customer empathy strength" else "technical depth")
           ++ " is actually your competitive advantage. Most founders struggle with "
           ++ (if results.buyerScore > results.techScore then "technical translation" else "customer empathy")
           ++ " - you have the foundation to excel quickly." }]
    else []
  i1 ++ i2 ++ i3

/-- The three synthesized diagnostic lists of the results view. -/
structure SynthesisOutput where
  challenges : List Challenge
  recommendations : List ToolRecommendation
  hiddenInsights : List HiddenInsight

/-- The diagnostic synthesis: the challenges, tool recommendations, and
hidden insights the results view derives from the scored results, the
generated content (which carries the gap), and the per-question timings. -/
def synthesize (results : ResultsView) (generatedContent : Option GeneratedContent)
    (productInfo : Option ProductInfoFull) (questionTimings : List (String × ℚ)) :
    SynthesisOutput :=
  { challenges := generateChallenges results generatedContent productInfo questionTimings
    recommendations := generateToolRecommendations results generatedContent productInfo questionTimings
    hiddenInsights := generateHiddenInsights results questionTimings }

/-- A response map that scores overall 79: buyer responses summing to 18
and all four tech questions at 4. -/
def respFor79 : String → Option ℚ :=
  respOf [("q1", 4), ("q2", 4), ("q3", 4), ("q4", 4), ("q5", 2),
          ("q8", 4), ("q9", 4), ("q10", 4), ("q11", 4)]

/-- A response map that scores overall 80. -/
def respFor80 : String → Option ℚ :=
  respOf [("q1", 4), ("q2", 4), ("q3", 4), ("q4", 4), ("q5", 4), ("q6", 1),
          ("q8", 4), ("q9", 4), ("q10", 4), ("q11", 2)]

/-- A response map that scores overall 59. -/
def respFor59 : String → Option ℚ :=
  respOf [("q1", 4), ("q2", 4), ("q3", 1),
          ("q8", 4), ("q9", 4), ("q10", 4), ("q11", 4)]

/-- A response map that scores overall 60. -/
def respFor60 : String → Option ℚ :=
  respOf [("q1", 4), ("q2", 4), ("q3", 4), ("q4", 2),
          ("q8", 4), ("q9", 4), ("q10", 4)]

/-- A response map that scores overall 39. -/
def respFor39 : String → Option ℚ :=
  respOf [("q1", 2), ("q8", 4), ("q9", 4), ("q10", 4), ("q11", 2)]

/-- A response map that scores overall 40: all four tech questions at 4. -/
def respFor40 : String → Option ℚ :=
  respOf [("q8", 4), ("q9", 4), ("q10", 4), ("q11", 4)]

/-- The maximal response map: every catalog question answered 4. -/
def maxResponses : String → Option ℚ :=
  fun s => if (assessmentQuestions.map (fun q => q.id)).contains s then some 4 else none

/-- The two-answer response map separating the rounded sum from the sum of
rounded category scores. -/
def respRoundingGap : String → Option ℚ := respOf [("q1", 4), ("q8", 1)]

/-- The empty response map. -/
def respEmpty : String → Option ℚ := fun _ => none

/-- A response map whose only entry sits under a key outside the
catalog. -/
def respForeignKey : String → Option ℚ :=
  fun s => if s = "qX" then some 5 else none

/-- The interaction script that refutes the count-milestone claim: answer
questions 1 through 5, then press Previous twice, landing back on
question 4 with five answers recorded. -/
def milestoneRevisitScript : List WizardAction :=
  [WizardAction.answer 4 10, WizardAction.answer 4 10, WizardAction.answer 4 10,
   WizardAction.answer 4 10, WizardAction.answer 4 10,
   WizardAction.previous, WizardAction.previous]

/-- The wizard state sitting on question 4 (index 3). -/
def stateAtQ4 : AssessState :=
  { currentQuestion := 3, responses := [], questionTimings := [], showUserForm := false }

/-- The state `handleResponse` produces from `stateAtQ4` with value 4. -/
def stateAfterQ4 : AssessState :=
  { currentQuestion := 4, responses := [("q4", 4)],
    questionTimings := [("q4", 7)], showUserForm := false }

/-- The first catalog question. -/
def question1 : Question :=
  { id := "q1", category := Category.buyer,
    text := "I can name the exact three pain points that cost my buyers the most money annually",
    weight := 857/100 }

/-- A product-info record for the insight scenarios. -/
def sampleProductInfo : ProductInfo :=
  { businessModel := "B2B SaaS", productDescription := "An analytics platform." }

/-- One batch-1 insight as the service could return it. -/
def insightBatch1A : AssessmentInsight :=
  { id := "ins-1", sessionId := "sess", batchNumber := 1, questionRange := "q1-q4",
    insight := "First pass.", challengeIdentified := "Buyer clarity",
    businessImpact := "Pipeline focus", confidence := 80, generatedAt := "t0" }

/-- A second, distinct batch-1 insight. -/
def insightBatch1B : AssessmentInsight :=
  { id := "ins-2", sessionId := "sess", batchNumber := 1, questionRange := "q1-q4",
    insight := "Second pass.", challengeIdentified := "Buyer clarity",
    businessImpact := "Pipeline focus", confidence := 82, generatedAt := "t1" }

/-- The results record of the hidden-insight counterexample: a large
buyer/tech imbalance and a sub-70 overall score. -/
def resultsForCex : ResultsView :=
  { overallScore := 60, buyerScore := 50, techScore := 10, qualification := "Developing" }

/-- Nine fast answers (1 second each). -/
def timingsForCex : List (String × ℚ) :=
  [("q1", 1000), ("q2", 1000), ("q3", 1000), ("q4", 1000), ("q5", 1000),
   ("q6", 1000), ("q7", 1000), ("q8", 1000), ("q9", 1000)]

theorem calculateScore_qualification (responses : String → Option ℚ) :
    (calculateScore responses).qualification
      = qualificationFor (calculateScore responses).overallScore := rfl

/-- C1 (counterexample): a response map whose overall score is exactly 79
is qualified `Promising` by the source thresholds (`79 ≥ 60`), not
`Developing` as the claim states. -/
theorem c1_boundary_cex :
    (calculateScore respFor79).overallScore = 79 ∧
    (calculateScore respFor79).qualification = Qualification.Promising ∧
    (calculateScore respFor79).qualification ≠ Qualification.Developing := by
  decide

/-- C1 (amended): the qualification boundaries of `calculateScore` are
exact at the stated points, with 79 mapping to `Promising` (not
`Developing`): 79 → Promising, 80 → Qualified, 59 → Developing,
60 → Promising, 39 → Early Stage, 40 → Developing. -/
theorem c1_qualification_boundaries (responses : String → Option ℚ) :
    ((calculateScore responses).overallScore = 79 →
      (calculateScore responses).qualification = Qualification.Promising) ∧
    ((calculateScore responses).overallScore = 80 →
      (calculateScore responses).qualification = Qualification.Qualified) ∧
    ((calculateScore responses).overallScore = 59 →
      (calculateScore responses).qualification = Qualification.Developing) ∧
    ((calculateScore responses).overallScore = 60 →
      (calculateScore responses).qualification = Qualification.Promising) ∧
    ((calculateScore responses).overallScore = 39 →
      (calculateScore responses).qualification = Qualification.EarlyStage) ∧
    ((calculateScore responses).overallScore = 40 →
      (calculateScore responses).qualification = Qualification.Developing) := by
  refine ⟨?_, ?_, ?_, ?_, ?_, ?_⟩ <;> intro h <;>
    rw [calculateScore_qualification, h] <;> decide

/-- C1 (witness): the six boundary values are all realized by concrete
response maps and carry the amended qualifications. -/
theorem c1_qualification_boundaries_witness :
    (calculateScore respFor79).qualification = Qualification.Promising ∧
    (calculateScore respFor80).qualification = Qualification.Qualified ∧
    (calculateScore respFor59).qualification = Qualification.Developing ∧
    (calculateScore respFor60).qualification = Qualification.Promising ∧
    (calculateScore respFor39).qualification = Qualification.EarlyStage ∧
    (calculateScore respFor40).qualification = Qualification.Developing :=
  ⟨(c1_qualification_boundaries respFor79).1 (by decide),
   (c1_qualification_boundaries respFor80).2.1 (by decide),
   (c1_qualification_boundaries respFor59).2.2.1 (by decide),
   (c1_qualification_boundaries respFor60).2.2.2.1 (by decide),
   (c1_qualification_boundaries respFor39).2.2.2.2.1 (by decide),
   (c1_qualification_boundaries respFor40).2.2.2.2.2 (by decide)⟩

/-- C3: for the maximal response map the tech total is exactly
`(4/4) * (10 + 10 + 10 + 10) = 40`, the rounded tech score is 40, and the
overall score is the literal 126 — strictly greater than 100, as the
weight table makes `9 * 8.57 + 8.58 + 40 = 125.71` round up to 126. -/
theorem c3_maximal_scores :
    (scoreTotals maxResponses).2 = 40 ∧
    (calculateScore maxResponses).techScore = 40 ∧
    (calculateScore maxResponses).overallScore = 126 ∧
    100 < (calculateScore maxResponses).overallScore := by
  decide

/-- C4 (counterexample): with `q1 = 4` and `q8 = 1` the source rounds
`8.57 + 2.5 = 11.07` to an overall score of 11, while the rounded category
scores are `9` and `3`, summing to 12 — the overall score is not the sum
of the two rounded category scores. -/
theorem c4_overall_sum_cex :
    (calculateScore respRoundingGap).buyerScore = 9 ∧
    (calculateScore respRoundingGap).techScore = 3 ∧
    (calculateScore respRoundingGap).overallScore = 11 ∧
    (calculateScore respRoundingGap).buyerScore + (calculateScore respRoundingGap).techScore
      ≠ (calculateScore respRoundingGap).overallScore := by
  decide

/-- Rounding a sum differs from the sum of the roundings by at most 1. -/
theorem jround_add_sub (a b : ℚ) : |jround a + jround b - jround (a + b)| ≤ 1 := by
  unfold jround
  have ha1 : ((⌊a + 1/2⌋ : ℤ) : ℚ) ≤ a + 1/2 := Int.floor_le _
  have ha2 : a + 1/2 < (⌊a + 1/2⌋ : ℤ) + 1 := Int.lt_floor_add_one _
  have hb1 : ((⌊b + 1/2⌋ : ℤ) : ℚ) ≤ b + 1/2 := Int.floor_le _
  have hb2 : b + 1/2 < (⌊b + 1/2⌋ : ℤ) + 1 := Int.lt_floor_add_one _
  have hc1 : ((⌊a + b + 1/2⌋ : ℤ) : ℚ) ≤ a + b + 1/2 := Int.floor_le _
  have hc2 : a + b + 1/2 < (⌊a + b + 1/2⌋ : ℤ) + 1 := Int.lt_floor_add_one _
  rw [abs_le]
  constructor
  · have h : ((-2 : ℤ) : ℚ) < ((⌊a + 1/2⌋ + ⌊b + 1/2⌋ - ⌊a + b + 1/2⌋ : ℤ) : ℚ) := by
      push_cast
      linarith
    have h2 : (-2 : ℤ) < ⌊a + 1/2⌋ + ⌊b + 1/2⌋ - ⌊a + b + 1/2⌋ := by exact_mod_cast h
    omega
  · have h : ((⌊a + 1/2⌋ + ⌊b + 1/2⌋ - ⌊a + b + 1/2⌋ : ℤ) : ℚ) < ((2 : ℤ) : ℚ) := by
      push_cast
      linarith
    have h2 : ⌊a + 1/2⌋ + ⌊b + 1/2⌋ - ⌊a + b + 1/2⌋ < (2 : ℤ) := by exact_mod_cast h
    omega

/-- C4 (amended): the overall score is the rounding of the unrounded
buyer + tech totals — so it can differ from the sum of the two rounded
category scores, though by at most 1. -/
theorem c4_overall_rounding (responses : String → Option ℚ) :
    (calculateScore responses).overallScore
      = jround ((scoreTotals responses).1 + (scoreTotals responses).2) ∧
    |(calculateScore responses).buyerScore + (calculateScore responses).techScore
      - (calculateScore responses).overallScore| ≤ 1 :=
  ⟨rfl, jround_add_sub (scoreTotals responses).1 (scoreTotals responses).2⟩

/-- The accumulation step only reads the response at the question's own
id. -/
theorem scoreStep_congr (r1 r2 : String → Option ℚ) (acc : ℚ × ℚ) (q : Question)
    (h : r1 q.id = r2 q.id) : scoreStep r1 acc q = scoreStep r2 acc q := by
  unfold scoreStep
  rw [h]

/-- Folding the accumulation step over a question list only reads the
responses at the listed ids. -/
theorem foldl_scoreStep_congr (r1 r2 : String → Option ℚ) (l : List Question)
    (h : ∀ q ∈ l, r1 q.id = r2 q.id) (acc : ℚ × ℚ) :
    l.foldl (scoreStep r1) acc = l.foldl (scoreStep r2) acc := by
  induction l generalizing acc with
  | nil => rfl
  | cons a t ih =>
    rw [List.foldl_cons, List.foldl_cons,
        scoreStep_congr r1 r2 acc a (h a (List.mem_cons_self a t))]
    exact ih (fun q hq => h q (List.mem_cons_of_mem a hq)) _

/-- C10: `calculateScore` depends only on the entries at the 14 catalog
ids — two response maps that agree on every catalog id produce the same
result record, so entries under any other key never influence the
output. -/
theorem c10_score_depends_only_on_catalog (r1 r2 : String → Option ℚ)
    (h : ∀ q ∈ assessmentQuestions, r1 q.id = r2 q.id) :
    calculateScore r1 = calculateScore r2 := by
  have key : scoreTotals r1 = scoreTotals r2 :=
    foldl_scoreStep_congr r1 r2 assessmentQuestions h (0, 0)
  unfold calculateScore
  rw [key]

/-- C10 (witness): the empty map and a map carrying only a non-catalog
key agree on every catalog id and score identically. -/
theorem c10_score_depends_only_on_catalog_witness :
    calculateScore respEmpty = calculateScore respForeignKey :=
  c10_score_depends_only_on_catalog respEmpty respForeignKey (by decide)

/-- C2: when both inputs tokenize to nothing the source computes `0 / 0`
and hands `NaN` (modelled `none`) through the clamp — it does not return
75; the claimed 75 only materializes when exactly one token list is
empty. -/
theorem c2_gap_nan_at_empty :
    calculateBuyerGap "" "" = none ∧
    calculateBuyerGap "we sell software to enterprise companies" "" = some 75 ∧
    calculateBuyerGap "" "we sell software to enterprise companies" = some 75 := by
  decide

/-- C9 (counterexample): for user text with 1 token fully matched against
3 generated tokens, the user-denominator formula of the claim yields 15
while the source divides by the larger token count and yields 67. -/
theorem c9_denominator_cex :
    calculateBuyerGap "alpha" "alpha beta gamma" = some 67 ∧
    gapWithUserDenom "alpha" "alpha beta gamma" = some 15 ∧
    calculateBuyerGap "alpha" "alpha beta gamma"
      ≠ gapWithUserDenom "alpha" "alpha beta gamma" := by
  decide

/-- Clamping with `max`/`min` is the two-sided conditional clamp. -/
theorem clamp_max_min (g : ℤ) :
    max 15 (min 75 g) = if g < 15 then 15 else if g > 75 then 75 else g := by
  rcases le_total g 15 with h | h <;> rcases le_total g 75 with h2 | h2 <;>
    simp [max_def, min_def] <;> split_ifs <;> omega

/-- C9 (amended): on non-empty token lists the source gap is the clamped
rounding of `(1 - overlap / max(aiTokens, userTokens)) * 100` — the
denominator of the overlap ratio is the larger token count, not the user
token count. -/
theorem c9_gap_formula (u a : String) (hu : tokensOf u ≠ []) (_ha : tokensOf a ≠ []) :
    calculateBuyerGap u a = some (gapWithMaxDenom u a) := by
  have hlen : ¬(max (tokensOf a).length (tokensOf u).length = 0) := by
    intro hmax
    exact hu (List.length_eq_zero.mp (Nat.max_eq_zero_iff.mp hmax).2)
  simp only [calculateBuyerGap, gapWithMaxDenom, overlapCount]
  rw [if_neg hlen, clamp_max_min]

/-- C9 (witness): two single-token texts with no overlap. -/
theorem c9_gap_formula_witness :
    calculateBuyerGap "alpha" "gamma" = some (gapWithMaxDenom "alpha" "gamma") :=
  c9_gap_formula "alpha" "gamma" (by decide) (by decide)

/-- C5 (counterexample): after answering five questions and backing up to
question 4, answering it again fires the batch-1 insight request even
though the answered-question count is 5, not the milestone 4 — the
trigger follows the question position, not the count of answered
questions. -/
theorem c5_milestone_cex :
    (runActions initAssessState milestoneRevisitScript).bind
      (fun s => (handleResponse s 4 10).map (fun r => (r.2, r.1.responses.length)))
      = some (some 1, 5) := by
  decide

/-- C5 (amended): an answer transition initiates the batch-k insight
request exactly when the answered question's 1-based position
(`currentQuestion + 1`) is 4 (batch 1), 9 (batch 2) or 14 (batch 3),
regardless of how many distinct questions have been answered. -/
theorem c5_trigger_by_position (s : AssessState) (v t : ℚ) (s' : AssessState)
    (trig : Option ℕ) (h : handleResponse s v t = some (s', trig)) :
    (trig = some 1 ↔ s.currentQuestion + 1 = 4) ∧
    (trig = some 2 ↔ s.currentQuestion + 1 = 9) ∧
    (trig = some 3 ↔ s.currentQuestion + 1 = 14) := by
  unfold handleResponse at h
  cases hq : assessmentQuestions.get? s.currentQuestion with
  | none => rw [hq] at h; exact absurd h (by simp)
  | some q =>
    rw [hq] at h
    split_ifs at h with hl <;>
      simp only [Option.some.injEq, Prod.mk.injEq] at h <;>
      obtain ⟨-, htrig⟩ := h <;>
      subst htrig <;>
      refine ⟨?_, ?_, ?_⟩ <;>
      split_ifs with h1 h2 h3 <;>
      simp_all

/-- C5 (witness): answering at index 3 fires exactly the batch-1
trigger. -/
theorem c5_trigger_by_position_witness :
    ((some 1 : Option ℕ) = some 1 ↔ stateAtQ4.currentQuestion + 1 = 4) ∧
    ((some 1 : Option ℕ) = some 2 ↔ stateAtQ4.currentQuestion + 1 = 9) ∧
    ((some 1 : Option ℕ) = some 3 ↔ stateAtQ4.currentQuestion + 1 = 14) :=
  c5_trigger_by_position stateAtQ4 4 7 stateAfterQ4 (some 1) (by decide)

/-- C7 (counterexample): the value 5 lies outside {1,2,3,4}, yet the
transition records it and advances to the next question — no validation
failure occurs and the state does change. -/
theorem c7_no_validation_cex :
    handleResponse initAssessState 5 10 =
      some ({ currentQuestion := 1, responses := [("q1", 5)],
              questionTimings := [("q1", 10)], showUserForm := false }, none) := by
  decide

/-- Replacing the value under an existing key puts `(k, v)` at the first
position whose key is `k`. -/
theorem find?_replace (l : List (String × ℚ)) (k : String) (v : ℚ)
    (hmem : l.any (fun p => p.1 = k) = true) :
    (l.map (fun p => if p.1 = k then (k, v) else p)).find? (fun p => p.1 = k)
      = some (k, v) := by
  induction l with
  | nil => simp at hmem
  | cons a t ih =>
    by_cases ha : a.1 = k
    · simp only [List.map_cons]
      rw [if_pos ha]
      exact List.find?_cons_of_pos _ (by simp)
    · have hmem' : t.any (fun p => p.1 = k) = true := by
        rw [List.any_cons] at hmem
        simpa [ha] using hmem
      simp only [List.map_cons]
      rw [if_neg ha, List.find?_cons_of_neg _ (by simp [ha])]
      exact ih hmem'

/-- Appending `(k, v)` to a list without the key makes it the first
match. -/
theorem find?_append_new (l : List (String × ℚ)) (k : String) (v : ℚ)
    (hmem : l.any (fun p => p.1 = k) = false) :
    (l ++ [(k, v)]).find? (fun p => p.1 = k) = some (k, v) := by
  induction l with
  | nil =>
    rw [List.nil_append]
    exact List.find?_cons_of_pos _ (by simp)
  | cons a t ih =>
    rw [List.any_cons, Bool.or_eq_false_iff] at hmem
    have ha : ¬(a.1 = k) := by simpa using hmem.1
    rw [List.cons_append, List.find?_cons_of_neg _ (by simp [ha])]
    exact ih hmem.2

/-- A JavaScript-style insert always leaves `v` under key `k`. -/
theorem lookupKV_insertKV (l : List (String × ℚ)) (k : String) (v : ℚ) :
    lookupKV (insertKV l k v) k = some v := by
  unfold insertKV lookupKV
  by_cases hmem : l.any (fun p => p.1 = k)
  · rw [if_pos hmem, find?_replace l k v hmem]
    rfl
  · rw [if_neg hmem, find?_append_new l k v (Bool.eq_false_iff.mpr hmem)]
    rfl

/-- C7 (amended): `handleResponse` performs no validation at all — for
every value, including values outside {1,2,3,4}, it records the value
under the current question's id and either advances to the next question
or switches to the user-info step; only the call sites restrict values to
{1,2,3,4}. -/
theorem c7_records_any_value (s : AssessState) (v t : ℚ) (q : Question)
    (hq : assessmentQuestions.get? s.currentQuestion = some q) :
    ∃ s' trig, handleResponse s v t = some (s', trig) ∧
      lookupKV s'.responses q.id = some v ∧
      (s'.currentQuestion = s.currentQuestion + 1 ∨ s'.showUserForm = true) := by
  by_cases hl : s.currentQuestion = assessmentQuestions.length - 1
  · refine ⟨{ s with
        responses := insertKV s.responses q.id v
        questionTimings := insertKV s.questionTimings q.id t
        showUserForm := true },
      if s.currentQuestion + 1 = 4 then some 1
        else if s.currentQuestion + 1 = 9 then some 2
        else if s.currentQuestion + 1 = 14 then some 3 else none,
      ?_, ?_, ?_⟩
    · simp only [handleResponse, hq]
      rw [if_pos hl]
    · exact lookupKV_insertKV s.responses q.id v
    · exact Or.inr rfl
  · refine ⟨{ s with
        responses := insertKV s.responses q.id v
        questionTimings := insertKV s.questionTimings q.id t
        currentQuestion := s.currentQuestion + 1 },
      if s.currentQuestion + 1 = 4 then some 1
        else if s.currentQuestion + 1 = 9 then some 2
        else if s.currentQuestion + 1 = 14 then some 3 else none,
      ?_, ?_, ?_⟩
    · simp only [handleResponse, hq]
      rw [if_neg hl]
    · exact lookupKV_insertKV s.responses q.id v
    · exact Or.inl rfl

/-- C7 (witness): the out-of-range value 5 is recorded on question 1 and
the wizard advances. -/
theorem c7_records_any_value_witness :
    ∃ s' trig, handleResponse initAssessState 5 10 = some (s', trig) ∧
      lookupKV s'.responses question1.id = some 5 ∧
      (s'.currentQuestion = initAssessState.currentQuestion + 1 ∨ s'.showUserForm = true) :=
  c7_records_any_value initAssessState 5 10 question1 (by decide)

/-- C6 (counterexample): requesting batch 1 a second time — with a batch-1
insight already stored — invokes the external service again and appends a
second record, so the insights list ends up with two batch-1 records. -/
theorem c6_duplicate_batch_cex :
    (generateRealtimeInsight "sess" (some sampleProductInfo)
      (generateRealtimeInsight "sess" (some sampleProductInfo) [] 1
        (Except.ok insightBatch1A)).1
      1 (Except.ok insightBatch1B)).2 = true ∧
    ((generateRealtimeInsight "sess" (some sampleProductInfo)
      (generateRealtimeInsight "sess" (some sampleProductInfo) [] 1
        (Except.ok insightBatch1A)).1
      1 (Except.ok insightBatch1B)).1.filter (fun i => i.batchNumber = 1)).length = 2 := by
  decide

/-- C6 (amended): `generateRealtimeInsight` has no idempotence or dedup
guard — whenever the session id is non-empty and product info is present,
every call invokes the external service, regardless of the insights
already stored, and a successful reply is appended unconditionally. -/
theorem c6_no_dedup_guard (sessionId : String) (pi : ProductInfo)
    (aiInsights : List AssessmentInsight) (batch : ℕ)
    (reply : Except String AssessmentInsight) (hs : sessionId ≠ "") :
    (generateRealtimeInsight sessionId (some pi) aiInsights batch reply).2 = true ∧
    (∀ ins, reply = Except.ok ins →
      (generateRealtimeInsight sessionId (some pi) aiInsights batch reply).1
        = aiInsights ++ [ins]) := by
  have hcond : ¬(sessionId = "" ∨ (some pi : Option ProductInfo) = none) := by
    rintro (h | h)
    · exact hs h
    · exact Option.noConfusion h
  unfold generateRealtimeInsight
  rw [if_neg hcond]
  cases reply with
  | ok r =>
    refine ⟨rfl, fun ins hins => ?_⟩
    cases hins
    rfl
  | error e =>
    exact ⟨rfl, fun ins hins => Except.noConfusion hins⟩

/-- C6 (witness): a concrete first invocation on an empty insight list. -/
theorem c6_no_dedup_guard_witness :
    (generateRealtimeInsight "sess" (some sampleProductInfo) [] 1
      (Except.ok insightBatch1A)).2 = true ∧
    (∀ ins, (Except.ok insightBatch1A : Except String AssessmentInsight) = Except.ok ins →
      (generateRealtimeInsight "sess" (some sampleProductInfo) [] 1
        (Except.ok insightBatch1A)).1 = [] ++ [ins]) :=
  c6_no_dedup_guard "sess" sampleProductInfo [] 1 (Except.ok insightBatch1A) (by decide)

/-- C8 (counterexample): with nine sub-2-second answers, an overall score
below 70, and a buyer/tech gap above 25, all three hidden-insight rules
fire — the list has length 3, outside the claimed [0,2]. -/
theorem c8_hidden_insights_cex :
    ((synthesize resultsForCex none none timingsForCex).hiddenInsights).length = 3 ∧
    ¬((synthesize resultsForCex none none timingsForCex).hiddenInsights).length ≤ 2 := by
  decide

/-- A conditional singleton has at most one element. -/
theorem length_if_singleton {α : Type} (p : Prop) [Decidable p] (x : α) :
    (if p then [x] else []).length ≤ 1 := by
  split <;> simp

/-- The empty-fallback-then-take-3 shape of `generateChallenges` always
yields between 1 and 3 elements. -/
theorem take3_fallback_bounds {α : Type} (l : List α) (fb : α) :
    1 ≤ ((if l.length = 0 then [fb] else l).take 3).length ∧
    ((if l.length = 0 then [fb] else l).take 3).length ≤ 3 := by
  by_cases h : l.length = 0 <;> simp [h, List.length_take] <;> omega

/-- Concatenating two at-most-singletons around a singleton gives between
1 and 3 elements. -/
theorem append_singleton_bounds {α : Type} (a b c : List α)
    (ha : a.length ≤ 1) (hb : b.length = 1) (hc : c.length ≤ 1) :
    1 ≤ (a ++ b ++ c).length ∧ (a ++ b ++ c).length ≤ 3 := by
  simp only [List.length_append]
  omega

/-- C8 (amended): for every combination of results, generated content
(with its gap), product info, and timings, the synthesis yields 1 to 3
challenges (the continuous-improvement fallback prevents emptiness), 0 to
3 recommendations, and 1 to 3 hidden insights — the industry-comparison
insight is unconditional, so the hidden-insight list is never empty and
can reach 3, not the claimed at-most-2. -/
theorem c8_synthesis_bounds (results : ResultsView) (gc : Option GeneratedContent)
    (pi : Option ProductInfoFull) (qt : List (String × ℚ)) :
    (1 ≤ (synthesize results gc pi qt).challenges.length ∧
      (synthesize results gc pi qt).challenges.length ≤ 3) ∧
    (synthesize results gc pi qt).recommendations.length ≤ 3 ∧
    (1 ≤ (synthesize results gc pi qt).hiddenInsights.length ∧
      (synthesize results gc pi qt).hiddenInsights.length ≤ 3) := by
  refine ⟨take3_fallback_bounds _ _, ?_, ?_⟩
  · exact List.length_take_le _ _
  · exact append_singleton_bounds _ _ _ (length_if_singleton _ _) rfl (length_if_singleton _ _)

